import Mathlib

/-!
Verification development for the file-inventory dashboard
(`src/pages/Files.tsx`). The TypeScript component is shallowly embedded:
pure computations become Lean functions, the handlers' observable actions
become explicit event traces over a small UI-state type, and the outcome of
each remote call is passed in as an explicit `Bool`/`Except` parameter.
-/

/-- One stored asset, mirroring the `MediaFile` interface of `Files.tsx`.
`is_permanent` is the tri-state flag (absent / 0 / 1) modelled as
`Option ℤ`. -/
structure MediaFile where
  id : String
  filename : String
  original_name : String
  mime_type : String
  category : String
  file_size : ℕ
  platform : Option String
  chat_id : Option String
  processed : Bool
  created_at : String
  is_permanent : Option ℤ
  deriving DecidableEq

/-- Aggregate usage statistics, mirroring the `FileStats` interface:
`byCategory` maps a category name to its (count, size) pair. -/
structure FileStats where
  totalFiles : ℕ
  totalSize : ℕ
  byCategory : List (String × ℕ × ℕ)
  deriving DecidableEq

/-- JavaScript `String.prototype.toLowerCase`, modelled character-wise with
`Char.toLower` (faithful on ASCII, which is all the strings at issue use). -/
def jsToLower (s : String) : String :=
  String.mk (s.toList.map Char.toLower)

/-- JavaScript `s.includes(q)`: `q` occurs as a contiguous substring of `s`. -/
def jsIncludes (s q : String) : Bool :=
  decide (q.toList <:+: s.toList)

/-- The `filteredFiles` computation of `Files.tsx` (lines 221-224):
`files.filter(f => f.original_name.toLowerCase().includes(searchQuery.toLowerCase())
|| f.category.includes(searchQuery.toLowerCase()))`.
Note the query is lowercased in both disjuncts but `f.category` is not. -/
def filteredFiles (files : List MediaFile) (searchQuery : String) : List MediaFile :=
  files.filter fun f =>
    jsIncludes (jsToLower f.original_name) (jsToLower searchQuery) ||
    jsIncludes f.category (jsToLower searchQuery)

/-- Case-insensitive substring relation, following the spec's words:
`q` is a case-insensitive substring of `s`. -/
def ciSubstr (q s : String) : Prop :=
  (jsToLower q).toList <:+: (jsToLower s).toList

instance (q s : String) : Decidable (ciSubstr q s) := by
  unfold ciSubstr; infer_instance

/-- The C1 claim as stated, following the spec's words: the filtered set is a
subset of the fetched set, and membership is decided by case-insensitive
substring match against `original_name` OR `category`. -/
def searchSpecHolds (S : List MediaFile) (q : String) : Prop :=
  (∀ r ∈ filteredFiles S q, r ∈ S) ∧
  ∀ r ∈ S, (r ∈ filteredFiles S q ↔ ciSubstr q r.original_name ∨ ciSubstr q r.category)

/-- A record whose category has an uppercase letter, used to separate the
code's filter from the spec's case-insensitive description. -/
def upperCatRecord : MediaFile :=
  { id := "1", filename := "f1.png", original_name := "x", mime_type := "image/png",
    category := "Images", file_size := 5, platform := none, chat_id := none,
    processed := false, created_at := "2024-01-01", is_permanent := none }

/-- `handleTogglePermanent` (lines 164-175): the request sends `!currentStatus`,
but the local patch uses the server's returned `is_permanent` value. On
success (`.ok v`) the component runs
`setFiles(prev => prev.map(f => f.id === id ? {...f, is_permanent: res.is_permanent} : f))`;
on failure (`apiFetch` throws) it only toasts, leaving `files` untouched. -/
def handleTogglePermanent (files : List MediaFile) (id : String)
    (serverResult : Except Unit ℤ) : List MediaFile :=
  match serverResult with
  | .error _ => files
  | .ok v => files.map fun f => if f.id = id then { f with is_permanent := some v } else f

/-- `handleDelete` (lines 152-162): a blocking `confirm` gates the call; on a
successful `DELETE` the component runs `setFiles(prev => prev.filter(f => f.id !== id))`;
when `apiFetch` throws (transport error or non-success status) it only
toasts, leaving `files` untouched. -/
def handleDelete (files : List MediaFile) (id : String)
    (confirmed : Bool) (serverOk : Bool) : List MediaFile :=
  if !confirmed then files
  else if serverOk then files.filter fun f => f.id != id
  else files

/-- Two further concrete records used by witnesses. -/
def docRecord : MediaFile :=
  { id := "2", filename := "f2.pdf", original_name := "Report.pdf",
    mime_type := "application/pdf", category := "documents", file_size := 1048576,
    platform := some "web", chat_id := none, processed := true,
    created_at := "2024-02-02", is_permanent := some 0 }

def audioRecord : MediaFile :=
  { id := "3", filename := "f3.mp3", original_name := "song.mp3",
    mime_type := "audio/mpeg", category := "audios", file_size := 2048,
    platform := none, chat_id := some "c9", processed := false,
    created_at := "2024-03-03", is_permanent := some 1 }

/-- Observable actions a handler can perform, in program order: React state
setters, one network request (`method`, `url`, and the field names of the
multipart body parts, empty when there is no body), toast notifications, and
the fire-and-forget calls to `fetchFiles()` / `fetchStats()`. -/
inductive Event where
  | setUploading (b : Bool)
  | setDragActive (b : Bool)
  | setFiles (fs : List MediaFile)
  | request (method : String) (url : String) (parts : List String)
  | toastSuccess (msg : String)
  | toastError (msg : String)
  | toastLoading (msg : String)
  | toastDismiss
  | fetchFilesCall
  | fetchStatsCall
  deriving DecidableEq

/-- The component state the traced handlers can touch. -/
structure UIState where
  files : List MediaFile
  uploading : Bool
  dragActive : Bool
  deriving DecidableEq

def applyEvent (s : UIState) : Event → UIState
  | .setUploading b => { s with uploading := b }
  | .setDragActive b => { s with dragActive := b }
  | .setFiles fs => { s with files := fs }
  | _ => s

def applyEvents (s : UIState) (es : List Event) : UIState :=
  es.foldl applyEvent s

def isSetUploading : Event → Bool
  | .setUploading _ => true
  | _ => false

def isRequest : Event → Bool
  | .request _ _ _ => true
  | _ => false

/-- How `handleFileUpload` was invoked: a picker change event carrying
`e.target.files`, or a native drag event (the `e instanceof Event` branch). -/
inductive UploadTrigger where
  | changeEvent (files : List String)
  | dragEvent
  deriving DecidableEq

/-- The multipart body built by `Array.from(fileList).forEach(file => formData.append('files', file))`:
one part named `"files"` per blob. -/
def uploadFormParts (fileList : List String) : List String :=
  fileList.map fun _ => "files"

/-- `handleFileUpload` (lines 100-137) as an event trace. The drag branch of
the `instanceof` test is empty, so a drag event leaves `fileList` null and
the function returns before doing anything. Otherwise the gesture sets the
uploading flag, issues the single POST to `/api/files/upload`, on a
non-ok response toasts a failure, on success toasts the count and triggers
`fetchFiles()` and `fetchStats()`, and finally clears the uploading flag. -/
def handleFileUpload (e : UploadTrigger) (serverOk : Bool) : List Event :=
  let fileList : Option (List String) :=
    match e with
    | .dragEvent => none
    | .changeEvent fs => some fs
  match fileList with
  | none => []
  | some fs =>
    if fs.length = 0 then []
    else
      [.setUploading true, .request "POST" "/api/files/upload" (uploadFormParts fs)] ++
      (if serverOk then
        [.toastSuccess ("Uploaded " ++ toString fs.length ++ " files successfully"),
         .fetchFilesCall, .fetchStatsCall]
      else
        [.toastError "Failed to upload files"]) ++
      [.setUploading false]

/-- `handleDrop` (lines 188-219) as an event trace: clears the drag-active
flag, and when `e.dataTransfer.files` is non-empty builds the same multipart
body inline, sets the uploading flag, issues the POST, toasts
`'Files uploaded'` / `'Upload failed'`, triggers the two reloads on success,
and clears the uploading flag in the `.finally`. -/
def handleDrop (dataTransferFiles : List String) (serverOk : Bool) : List Event :=
  .setDragActive false ::
  (if dataTransferFiles.length > 0 then
    [.setUploading true, .request "POST" "/api/files/upload" (uploadFormParts dataTransferFiles)] ++
    (if serverOk then
      [.toastSuccess "Files uploaded", .fetchFilesCall, .fetchStatsCall]
    else
      [.toastError "Upload failed"]) ++
    [.setUploading false]
  else [])

/-- `handleProcessKnowledge` (lines 139-150) as an event trace: toast a
loading notice, issue the POST, then dismiss and toast the outcome. It never
calls `setFiles`. -/
def handleProcessKnowledge (id : String) (serverOk : Bool) : List Event :=
  [.toastLoading "Processing file for Knowledge Bank...",
   .request "POST" ("/api/files/" ++ id ++ "/process-knowledge") []] ++
  (if serverOk then [.toastDismiss, .toastSuccess "Added to Knowledge Bank"]
   else [.toastDismiss, .toastError "Failed to process file"])

/-- The URL chosen by `fetchFiles` (lines 79-81) from the selected category. -/
def fetchFilesUrl (selectedCategory : String) : String :=
  if selectedCategory = "all" then "/api/files"
  else "/api/files?category=" ++ selectedCategory

/-- The effect of `fetchFiles`'s response handling on the record list:
`setFiles(data)` on success, untouched on failure (the catch only logs). -/
def fetchFilesResult (files : List MediaFile)
    (response : Except Unit (List MediaFile)) : List MediaFile :=
  match response with
  | .ok data => data
  | .error _ => files

/-- The unit array of `formatFileSize` (line 43). -/
def sizes : List String := ["Bytes", "KB", "MB", "GB"]

/-- `parseFloat((num/den).toFixed(2))` rendered as JavaScript string-concats
it: round `num/den` to two decimals (ties up, as `toFixed` does for positive
values) and strip trailing fractional zeros. Faithful whenever the double
division `num/den` is exact, which holds at every input the claims use. -/
def toFixed2ParseFloat (num den : ℕ) : String :=
  let centi := (200 * num + den) / (2 * den)
  let ip := centi / 100
  let fp := centi % 100
  if fp = 0 then toString ip
  else if fp % 10 = 0 then toString ip ++ "." ++ toString (fp / 10)
  else if fp < 10 then toString ip ++ ".0" ++ toString fp
  else toString ip ++ "." ++ toString fp

/-- `formatFileSize` (lines 40-46). `Math.floor(Math.log(bytes)/Math.log(1024))`
is the integer base-1024 logarithm, modelled exactly by `Nat.log 1024`; the
JavaScript expression `sizes[i]` on an out-of-range index yields `undefined`,
which the string concatenation renders as `"undefined"`, modelled by
`List.getD` with that default. -/
def formatFileSize (bytes : ℕ) : String :=
  if bytes = 0 then "0 Bytes"
  else
    let i := Nat.log 1024 bytes
    toFixed2ParseFloat bytes (1024 ^ i) ++ " " ++ sizes.getD i "undefined"

/-- The stats snapshot of the spec's rendering scenario. -/
def scenarioStats : FileStats :=
  { totalFiles := 3, totalSize := 3145728,
    byCategory := [("images", 2, 2097152), ("documents", 1, 1048576)] }

/-- A concrete component state for witnesses. -/
def emptyState : UIState :=
  { files := [], uploading := false, dragActive := false }

/-- The C5 claim as stated, following the spec's words: the picker path and
the drop path are two entry points into one submit-batch operation with an
identical contract — on success both report the count of files transferred
(their success toast mentions the batch size) and both trigger a reload of
the inventory and the stats, and on failure both behave identically. -/
def submitBatchContractsIdentical : Prop :=
  ∀ fs : List String, fs ≠ [] →
    (∃ msg, Event.toastSuccess msg ∈ handleFileUpload (.changeEvent fs) true ∧
      jsIncludes msg (toString fs.length) = true) ∧
    (∃ msg, Event.toastSuccess msg ∈ handleDrop fs true ∧
      jsIncludes msg (toString fs.length) = true) ∧
    Event.fetchFilesCall ∈ handleFileUpload (.changeEvent fs) true ∧
    Event.fetchStatsCall ∈ handleFileUpload (.changeEvent fs) true ∧
    Event.fetchFilesCall ∈ handleDrop fs true ∧
    Event.fetchStatsCall ∈ handleDrop fs true ∧
    handleFileUpload (.changeEvent fs) false = handleDrop fs false

theorem jsIncludes_iff (s q : String) :
    jsIncludes s q = true ↔ q.toList <:+: s.toList := by
  unfold jsIncludes; exact decide_eq_true_iff

/-- C1 counterexample: with the single record whose `category` is `"Images"`
and the query `"IMAGES"`, the query is a case-insensitive substring of the
category, yet the code's filter drops the record, because `f.category` is
compared without lowercasing. -/
theorem search_case_insensitive_claim_false :
    ¬ searchSpecHolds [upperCatRecord] "IMAGES" := by
  intro h
  have hmem : upperCatRecord ∈ filteredFiles [upperCatRecord] "IMAGES" :=
    (h.2 upperCatRecord (List.mem_singleton.mpr rfl)).mpr (Or.inr (by decide))
  have hempty : filteredFiles [upperCatRecord] "IMAGES" = [] := by decide
  rw [hempty] at hmem
  exact List.not_mem_nil _ hmem

/-- C1 (amended): the filtered set is a subset of the fetched set, and a
record is kept iff the lowercased query is a substring of the lowercased
`original_name`, or the lowercased query is a substring of `category`
exactly as stored (the category side is not lowercased). -/
theorem search_filter_characterization (S : List MediaFile) (q : String) :
    (∀ r ∈ filteredFiles S q, r ∈ S) ∧
    ∀ r ∈ S, (r ∈ filteredFiles S q ↔
      ((jsToLower q).toList <:+: (jsToLower r.original_name).toList ∨
       (jsToLower q).toList <:+: r.category.toList)) := by
  constructor
  · intro r hr
    exact (List.mem_filter.mp hr).1
  · intro r hr
    unfold filteredFiles
    rw [List.mem_filter]
    simp only [Bool.or_eq_true, jsIncludes_iff]
    tauto

/-- Concrete instance of the amended C1 theorem: the record with category
`"Images"` is kept when searching for `"mages"` (substring of the stored
category), as the characterization predicts. -/
theorem search_filter_characterization_witness :
    upperCatRecord ∈ filteredFiles [upperCatRecord] "mages" :=
  ((search_filter_characterization [upperCatRecord] "mages").2 upperCatRecord
    (List.mem_singleton.mpr rfl)).mpr (Or.inr (by decide))

/-- C2: a successful `setPermanent(X, v)` rewrites, position by position,
exactly the records whose id is `X`, setting only `is_permanent` to the
server-returned value; every record with a different id is bitwise
unchanged; on failure the whole list is unchanged. -/
theorem toggle_permanent_frame (files : List MediaFile) (X : String) (v : ℤ) :
    List.Forall₂
      (fun g f => if g.id = X then f = { g with is_permanent := some v } else f = g)
      files (handleTogglePermanent files X (.ok v)) ∧
    handleTogglePermanent files X (.error ()) = files := by
  refine ⟨?_, rfl⟩
  induction files with
  | nil => exact List.Forall₂.nil
  | cons g gs ih =>
    refine List.Forall₂.cons ?_ ih
    by_cases h : g.id = X <;> simp [h]

/-- C3: after a successful `deleteFile(X)` no record with id `X` remains, the
result is an order-preserving sublist of the original (no other record is
touched), every record with a different id survives, and a failed delete
leaves the list exactly as it was. -/
theorem delete_frame (files : List MediaFile) (X : String) :
    (∀ r ∈ handleDelete files X true true, r.id ≠ X) ∧
    (handleDelete files X true true).Sublist files ∧
    (∀ r ∈ files, r.id ≠ X → r ∈ handleDelete files X true true) ∧
    handleDelete files X true false = files := by
  refine ⟨?_, ?_, ?_, rfl⟩
  · intro r hr
    have := (List.mem_filter.mp hr).2
    simpa using this
  · exact List.filter_sublist _
  · intro r hr hne
    exact List.mem_filter.mpr ⟨hr, by simpa using hne⟩

/-- Concrete instance of the C2 frame theorem on a two-record store: toggling
id `"2"` to server value 1 patches `docRecord` and leaves `audioRecord`
bitwise unchanged, and a failed toggle changes nothing. -/
theorem toggle_permanent_frame_witness :
    List.Forall₂
      (fun g f => if g.id = "2" then f = { g with is_permanent := some (1 : ℤ) } else f = g)
      [docRecord, audioRecord] (handleTogglePermanent [docRecord, audioRecord] "2" (.ok 1)) ∧
    handleTogglePermanent [docRecord, audioRecord] "2" (.error ()) = [docRecord, audioRecord] :=
  toggle_permanent_frame [docRecord, audioRecord] "2" 1

/-- Concrete instance of the C3 theorem: deleting id `"2"` from a two-record
store keeps `audioRecord` (id `"3"`) and a rejected delete keeps the store
intact. -/
theorem delete_frame_witness :
    audioRecord ∈ handleDelete [docRecord, audioRecord] "2" true true ∧
    handleDelete [docRecord, audioRecord] "2" true false = [docRecord, audioRecord] :=
  ⟨(delete_frame [docRecord, audioRecord] "2").2.2.1 audioRecord
      (by simp [List.mem_cons]) (by decide),
    (delete_frame [docRecord, audioRecord] "2").2.2.2⟩

/-- C4: an upload gesture with N ≥ 1 blobs, on either path, issues exactly
one network transfer, and that transfer is a POST to `/api/files/upload`
whose body is N multipart parts all named `files`; the uploading flag is set
true at submission, set false after the call settles, and toggled nowhere
else; on failure no inventory reload is triggered and the local record list
is unchanged. -/
theorem upload_gesture_contract (fs : List String) (ok : Bool) (s : UIState)
    (hfs : fs ≠ []) :
    ((handleFileUpload (.changeEvent fs) ok).countP isRequest = 1 ∧
     (handleDrop fs ok).countP isRequest = 1) ∧
    (∀ m u p, (Event.request m u p ∈ handleFileUpload (.changeEvent fs) ok ∨
               Event.request m u p ∈ handleDrop fs ok) →
      m = "POST" ∧ u = "/api/files/upload" ∧ p = List.replicate fs.length "files") ∧
    ((handleFileUpload (.changeEvent fs) ok).head? = some (.setUploading true) ∧
     (handleFileUpload (.changeEvent fs) ok).getLast? = some (.setUploading false) ∧
     (handleFileUpload (.changeEvent fs) ok).countP isSetUploading = 2) ∧
    ((handleDrop fs ok).get? 1 = some (.setUploading true) ∧
     (handleDrop fs ok).getLast? = some (.setUploading false) ∧
     (handleDrop fs ok).countP isSetUploading = 2) ∧
    (ok = false →
      (applyEvents s (handleFileUpload (.changeEvent fs) false)).files = s.files ∧
      (applyEvents s (handleDrop fs false)).files = s.files ∧
      Event.fetchFilesCall ∉ handleFileUpload (.changeEvent fs) false ∧
      Event.fetchFilesCall ∉ handleDrop fs false) := by
  have hlen : fs.length ≠ 0 := by simpa [List.length_eq_zero] using hfs
  have hpos : 0 < fs.length := Nat.pos_of_ne_zero hlen
  have hparts : uploadFormParts fs = List.replicate fs.length "files" := by
    simp [uploadFormParts]
  cases ok <;>
    simp [handleFileUpload, handleDrop, hlen, hpos, hparts,
      applyEvents, applyEvent, isRequest, isSetUploading,
      List.countP_cons, List.countP_nil, List.getLast?, List.get?]

/-- Concrete instance of the C4 contract for the two-blob gesture
`["a", "b"]` with a failing server: one transfer on each path, the uploading
bracket around it, and no reload or local change afterwards. -/
theorem upload_gesture_contract_witness :
    ((handleFileUpload (.changeEvent ["a", "b"]) false).countP isRequest = 1 ∧
     (handleDrop ["a", "b"] false).countP isRequest = 1) ∧
    ((handleFileUpload (.changeEvent ["a", "b"]) false).head? = some (.setUploading true) ∧
     (handleFileUpload (.changeEvent ["a", "b"]) false).getLast? = some (.setUploading false) ∧
     (handleFileUpload (.changeEvent ["a", "b"]) false).countP isSetUploading = 2) ∧
    (applyEvents emptyState (handleFileUpload (.changeEvent ["a", "b"]) false)).files =
      emptyState.files ∧
    Event.fetchFilesCall ∉ handleDrop ["a", "b"] false :=
  ⟨(upload_gesture_contract ["a", "b"] false emptyState (by decide)).1,
   (upload_gesture_contract ["a", "b"] false emptyState (by decide)).2.2.1,
   ((upload_gesture_contract ["a", "b"] false emptyState (by decide)).2.2.2.2 rfl).1,
   ((upload_gesture_contract ["a", "b"] false emptyState (by decide)).2.2.2.2 rfl).2.2.2⟩

/-- C5 counterexample: for the two-blob batch `["a", "b"]`, the drop path's
only success toast is the fixed string `"Files uploaded"`, which does not
mention the batch size 2, so the two submission paths do not satisfy one
identical report-the-count contract. -/
theorem submit_batch_identical_claim_false : ¬ submitBatchContractsIdentical := by
  intro h
  obtain ⟨msg, hmem, hinc⟩ := (h ["a", "b"] (by decide)).2.1
  have hmsg : msg = "Files uploaded" := by
    simpa [handleDrop] using hmem
  rw [hmsg] at hinc
  have : jsIncludes "Files uploaded" (toString (["a", "b"].length)) = false := by decide
  rw [this] at hinc
  exact Bool.false_ne_true hinc

/-- C5 (amended): both paths issue the same single transfer and on success
both trigger the inventory and stats reloads, but only the picker path's
toast reports the batch size; the drop path's only success toast is the
fixed `"Files uploaded"`, and the failure toasts differ as well
(`"Failed to upload files"` vs `"Upload failed"`). -/
theorem submit_batch_paths_compared (fs : List String) (ok : Bool) (hfs : fs ≠ []) :
    (∀ m u p, Event.request m u p ∈ handleFileUpload (.changeEvent fs) ok ↔
              Event.request m u p ∈ handleDrop fs ok) ∧
    (ok = true →
      Event.toastSuccess ("Uploaded " ++ toString fs.length ++ " files successfully")
        ∈ handleFileUpload (.changeEvent fs) true ∧
      Event.toastSuccess "Files uploaded" ∈ handleDrop fs true ∧
      (∀ msg, Event.toastSuccess msg ∈ handleDrop fs true → msg = "Files uploaded") ∧
      Event.fetchFilesCall ∈ handleFileUpload (.changeEvent fs) true ∧
      Event.fetchStatsCall ∈ handleFileUpload (.changeEvent fs) true ∧
      Event.fetchFilesCall ∈ handleDrop fs true ∧
      Event.fetchStatsCall ∈ handleDrop fs true) ∧
    (ok = false →
      Event.toastError "Failed to upload files" ∈ handleFileUpload (.changeEvent fs) false ∧
      Event.toastError "Upload failed" ∈ handleDrop fs false ∧
      Event.fetchFilesCall ∉ handleFileUpload (.changeEvent fs) false ∧
      Event.fetchFilesCall ∉ handleDrop fs false) := by
  have hlen : fs.length ≠ 0 := by simpa [List.length_eq_zero] using hfs
  have hpos : 0 < fs.length := Nat.pos_of_ne_zero hlen
  cases ok <;>
    simp [handleFileUpload, handleDrop, hlen, hpos]

/-- Concrete instance of the amended C5 theorem at the one-blob batch
`["a"]` with a successful server: the picker toast carries the count, the
drop toast is the fixed string, and both paths trigger both reloads. -/
theorem submit_batch_paths_compared_witness :
    Event.toastSuccess ("Uploaded " ++ toString (["a"].length) ++ " files successfully")
      ∈ handleFileUpload (.changeEvent ["a"]) true ∧
    Event.toastSuccess "Files uploaded" ∈ handleDrop ["a"] true ∧
    Event.fetchFilesCall ∈ handleDrop ["a"] true ∧
    Event.fetchStatsCall ∈ handleDrop ["a"] true :=
  ⟨((submit_batch_paths_compared ["a"] true (by decide)).2.1 rfl).1,
   ((submit_batch_paths_compared ["a"] true (by decide)).2.1 rfl).2.1,
   ((submit_batch_paths_compared ["a"] true (by decide)).2.1 rfl).2.2.2.2.2.1,
   ((submit_batch_paths_compared ["a"] true (by decide)).2.1 rfl).2.2.2.2.2.2⟩

theorem jsIncludes_empty (s : String) : jsIncludes s "" = true :=
  (jsIncludes_iff s "").mpr ⟨[], s.toList, by simp⟩

/-- C6: a category other than `"all"` yields the server-filtered URL
`/api/files?category=C`, `"all"` yields the unfiltered `/api/files`, a
successful fetch replaces the local record list with exactly the server's
response (a failed one leaves it alone), and with an empty search query the
displayed set is that response unchanged. -/
theorem category_fetch_contract (c : String) (hc : c ≠ "all")
    (files data : List MediaFile) :
    fetchFilesUrl c = "/api/files?category=" ++ c ∧
    fetchFilesUrl "all" = "/api/files" ∧
    fetchFilesResult files (.ok data) = data ∧
    fetchFilesResult files (.error ()) = files ∧
    filteredFiles data "" = data := by
  refine ⟨by simp [fetchFilesUrl, hc], rfl, rfl, rfl, ?_⟩
  unfold filteredFiles
  have hq : jsToLower "" = "" := rfl
  rw [List.filter_eq_self]
  intro f _
  simp [hq, jsIncludes_empty]

/-- Concrete instance of the C6 contract at category `"images"`. -/
theorem category_fetch_contract_witness :
    fetchFilesUrl "images" = "/api/files?category=images" ∧
    fetchFilesUrl "all" = "/api/files" ∧
    fetchFilesResult [audioRecord] (.ok [docRecord]) = [docRecord] ∧
    fetchFilesResult [audioRecord] (.error ()) = [audioRecord] ∧
    filteredFiles [docRecord] "" = [docRecord] :=
  category_fetch_contract "images" (by decide) [audioRecord] [docRecord]

/-- C7: `requestKnowledgeProcessing(id)` first reports to the user (the
loading toast is the very first action, before the request itself, which is
the second), and independently of the outcome it leaves the entire component
state — in particular every record's `processed` flag — unchanged. -/
theorem knowledge_trigger_frame (id : String) (ok : Bool) (s : UIState) :
    (handleProcessKnowledge id ok).get? 0 =
      some (.toastLoading "Processing file for Knowledge Bank...") ∧
    (handleProcessKnowledge id ok).get? 1 =
      some (.request "POST" ("/api/files/" ++ id ++ "/process-knowledge") []) ∧
    applyEvents s (handleProcessKnowledge id ok) = s ∧
    (applyEvents s (handleProcessKnowledge id ok)).files.map MediaFile.processed =
      s.files.map MediaFile.processed := by
  cases ok <;>
    simp [handleProcessKnowledge, applyEvents, applyEvent, List.get?]

/-- C8: the spec's rendering scenario — a total size of 3145728 bytes is
rendered `"3 MB"` and zero bytes is rendered `"0 Bytes"`. -/
theorem format_size_scenario :
    formatFileSize scenarioStats.totalSize = "3 MB" ∧ formatFileSize 0 = "0 Bytes" := by
  have hlog : Nat.log 1024 3145728 = 2 :=
    Nat.log_eq_of_pow_le_of_lt_pow (by norm_num) (by norm_num)
  constructor
  · show formatFileSize 3145728 = "3 MB"
    unfold formatFileSize
    rw [if_neg (by norm_num), hlog]
    rfl
  · rfl

/-- C9: for every byte count of at least 1024^4 the unit index computed by
`formatFileSize` falls past the end of its four-element unit array (the
lookup yields no defined unit string), and at the concrete input 2^41 the
function returns `"2 undefined"` — it is not total over the non-negative
integers the spec allows for `file_size`. -/
theorem format_size_unit_overflow (b : ℕ) (hb : 1024 ^ 4 ≤ b) :
    sizes.length ≤ Nat.log 1024 b ∧
    sizes.get? (Nat.log 1024 b) = none ∧
    formatFileSize (2 ^ 41) = "2 undefined" := by
  have hb0 : b ≠ 0 := by positivity
  have hlog4 : 4 ≤ Nat.log 1024 b :=
    (Nat.pow_le_iff_le_log (by norm_num) hb0).mp hb
  have hlen : sizes.length = 4 := rfl
  refine ⟨by omega, List.get?_eq_none.mpr (by omega), ?_⟩
  have hlog : Nat.log 1024 (2 ^ 41) = 4 :=
    Nat.log_eq_of_pow_le_of_lt_pow (by norm_num) (by norm_num)
  unfold formatFileSize
  rw [if_neg (by norm_num), hlog]
  rfl

/-- Concrete instance of the C9 theorem at b = 2^40 = 1024^4, the smallest
power-of-two input past the unit array. -/
theorem format_size_unit_overflow_witness :
    sizes.length ≤ Nat.log 1024 (2 ^ 40) ∧
    sizes.get? (Nat.log 1024 (2 ^ 40)) = none ∧
    formatFileSize (2 ^ 41) = "2 undefined" :=
  format_size_unit_overflow (2 ^ 40) (by norm_num)

/-- C10: invoked with a drag event, `handleFileUpload`'s `instanceof` branch
is empty, so the function performs no action at all — no request, no
uploading flag, no state change — and drop-triggered uploads are carried
entirely by `handleDrop`'s inline logic, which does issue the transfer. -/
theorem drag_branch_inert (ok : Bool) (s : UIState) :
    handleFileUpload .dragEvent ok = [] ∧
    applyEvents s (handleFileUpload .dragEvent ok) = s ∧
    (∀ fs : List String, fs ≠ [] →
      Event.request "POST" "/api/files/upload" (uploadFormParts fs) ∈ handleDrop fs ok) := by
  refine ⟨rfl, rfl, ?_⟩
  intro fs hfs
  have hpos : 0 < fs.length := List.length_pos.mpr hfs
  cases ok <;> simp [handleDrop, hpos]

/-- Concrete instance of the C10 theorem: a drag event produces an empty
trace while a one-blob drop issues the transfer. -/
theorem drag_branch_inert_witness :
    handleFileUpload .dragEvent true = [] ∧
    Event.request "POST" "/api/files/upload" (uploadFormParts ["a"]) ∈ handleDrop ["a"] true :=
  ⟨(drag_branch_inert true emptyState).1,
   (drag_branch_inert true emptyState).2.2 ["a"] (by decide)⟩
